import Mathlib

/-!
Verification development for the CliniqAI repository.

The repository ships a web dashboard (sources under `frontend/`) together with
design documentation for a per-call dialogue orchestrator.  The orchestrator
itself is not present under the repository's source tree — only its design
documents, its FastAPI callers and the dashboard that displays its records are.
The orchestrator components below are therefore modelled from the
specification, faithful to its wording; the dashboard-side functions
(`signIn`, `roleRoute`) are embedded directly from the TypeScript sources
(`frontend/src/context/AuthContext.tsx`, the application router component).
-/

namespace CliniqAI

/-! ## Basic string machinery

JavaScript-style case-insensitive substring matching, embedded at the level of
lists of (lower-cased) character codes so every predicate evaluates inside the
kernel. -/

/-- Lower-case a character code (ASCII range only; utterances and demo
credentials in this development are ASCII). -/
def lowerCode (c : Char) : Nat :=
  let n := c.toNat
  if 65 ≤ n ∧ n ≤ 90 then n + 32 else n

/-- The lower-cased character codes of a string. -/
def codes (s : String) : List Nat :=
  s.data.map lowerCode

/-- Whether the first list is a prefix of the second. -/
def beginsWithL : List Nat → List Nat → Bool
  | [], _ => true
  | _ :: _, [] => false
  | p :: ps, c :: cs => p == c && beginsWithL ps cs

/-- Whether the first list occurs as a contiguous sublist of the second. -/
def sublistIn (p : List Nat) : List Nat → Bool
  | [] => p.isEmpty
  | c :: cs => beginsWithL p (c :: cs) || sublistIn p cs

/-- Case-insensitive substring test: does `pat` occur in `text`? -/
def containsSub (text pat : String) : Bool :=
  sublistIn (codes pat) (codes text)

/-- Does `text` contain (case-insensitively) any of the keywords? -/
def containsAny (text : String) (ks : List String) : Bool :=
  ks.any (fun k => containsSub text k)

/-- A character `String.prototype.trim` strips: the ECMA-262 WhiteSpace set
(TAB, VT, FF, SP, NBSP, ZWNBSP and the Unicode space separators U+1680,
U+2000–U+200A, U+202F, U+205F, U+3000) together with the LineTerminator set
(LF, CR, LS U+2028, PS U+2029). -/
def isWsChar (c : Char) : Bool :=
  let n := c.toNat
  decide ((9 ≤ n ∧ n ≤ 13) ∨ n = 32 ∨ n = 160 ∨ n = 5760 ∨
    (8192 ≤ n ∧ n ≤ 8202) ∨ n = 8232 ∨ n = 8233 ∨ n = 8239 ∨
    n = 8287 ∨ n = 12288 ∨ n = 65279)

/-- Drop whitespace from both ends of a character list. -/
def trimChars (l : List Char) : List Char :=
  ((l.dropWhile isWsChar).reverse.dropWhile isWsChar).reverse

/-- Embedding of JavaScript `String.prototype.trim`: removes leading and
trailing characters of the ECMA-262 WhiteSpace and LineTerminator sets. -/
def trimStr (s : String) : String :=
  ⟨trimChars s.data⟩

/-! ## Data model

Modelled from the spec, §3–§4: session states, flow kinds, the closed
escalation reason-code set, severities and slot names. -/

/-- Modelled from the spec: the dialogue states of §4.3 (the state-machine
code is absent from the source tree). -/
inductive SessionState where
  | greeting
  | intentSelection
  | slotCollection
  | confirmation
  | completed
  | escalated
  | failed
deriving DecidableEq, Repr

/-- Modelled from the spec: the closed set of flow kinds (§3), with `noFlow`
standing for the spec's `none`. -/
inductive FlowKind where
  | appointment
  | refill
  | callback
  | general
  | noFlow
deriving DecidableEq, Repr

/-- Modelled from the spec: the closed escalation reason-code set (§4.2,
§4.4, §6). -/
inductive Reason where
  | medical_emergency_keyword
  | requested_human
  | medical_risk_intent
  | failed_understanding_3_turns
  | provider_instability
  | session_timeout
deriving DecidableEq, Repr

/-- The closed reason-code set of the spec, as a list. -/
def reasonCodeSet : List Reason :=
  [.medical_emergency_keyword, .requested_human, .medical_risk_intent,
   .failed_understanding_3_turns, .provider_instability, .session_timeout]

/-- Modelled from the spec: escalation severity (§4.2). -/
inductive Severity where
  | emergency
  | standard
deriving DecidableEq, Repr

/-- Modelled from the spec: the escalation-decision value object of §3
(`escalate`, nullable reason code, severity). -/
structure EscalationDecision where
  escalate : Bool
  reason : Option Reason
  severity : Option Severity
deriving DecidableEq, Repr

/-- Present the rule engine's raw result as the spec's value object. -/
def decisionOf : Option (Reason × Severity) → EscalationDecision
  | none => ⟨false, none, none⟩
  | some (r, v) => ⟨true, some r, some v⟩

/-- Modelled from the spec: slot names across the four flows (§3, Slot
Definition). -/
inductive SlotName where
  | name
  | apptType
  | date
  | time
  | preferredTime
deriving DecidableEq, Repr

/-- Modelled from the spec: the ordered slot definition of each flow (§3). -/
def slotDefs : FlowKind → List SlotName
  | .appointment => [.name, .apptType, .date, .time]
  | .refill => [.name]
  | .callback => [.name, .preferredTime]
  | .general => []
  | .noFlow => []

/-- Modelled from the spec: per-slot validators (§3 specifies only that every
slot carries one; the concrete check is that the collected value is nonempty
after trimming). -/
def validateSlot (n : SlotName) (v : String) : Bool :=
  match n with
  | _ => !(trimChars v.data).isEmpty

/-- Modelled from the spec: the Call Session aggregate (§3): call reference,
state, locked flow, slot map, turn counters, escalation status, transcript
(turn history) and timestamps. -/
structure Session where
  callRef : String
  state : SessionState
  flow : FlowKind
  slots : List (SlotName × String)
  turnCount : Nat
  unrecognized : Nat
  escalation : Option (Reason × Severity)
  transcript : List String
  createdAt : Nat
  lastActivity : Nat
deriving DecidableEq, Repr

/-- Modelled from the spec: a session freshly created by the Session Manager
on the first inbound transport event (§3, §4.4). -/
def freshSession (ref : String) (t : Nat) : Session :=
  ⟨ref, .greeting, .noFlow, [], 0, 0, none, [], t, t⟩

/-- Is the state terminal (`COMPLETED`, `ESCALATED` or `FAILED`)? -/
def isTerminal : SessionState → Bool
  | .completed => true
  | .escalated => true
  | .failed => true
  | _ => false

/-- Modelled from the spec: one inbound turn as seen by the orchestrator —
recognised utterance, recognition confidence (scaled to 0–100), the Entity
Extractor's candidate values, whether a collaborator call failed this turn,
and the transport timestamp. -/
structure TurnEvent where
  utterance : String
  confidence : Nat
  entities : List (SlotName × String)
  providerFailure : Bool
  time : Nat
deriving DecidableEq, Repr

/-- Modelled from the spec: configuration — the recognition-confidence
threshold of §4.2 rule 4 (scaled to 0–100; the documentation's calibration
starting point is 70). -/
structure Config where
  confidenceThreshold : Nat
deriving DecidableEq, Repr

/-! ## Keyword tables

Modelled from the spec's example keyword lists (§4.2, §4.3). -/

/-- Modelled from the spec: emergency keywords of §4.2 rule 1. -/
def emergencyKeywords : List String :=
  ["chest pain", "can\x27t breathe", "bleeding", "suicide"]

/-- Modelled from the spec: explicit human-request phrases of §4.2 rule 2. -/
def humanRequestKeywords : List String :=
  ["speak to a person", "talk to a person", "real person"]

/-- Modelled from the spec: medical-risk intent keywords of §4.2 rule 3. -/
def medicalRiskKeywords : List String :=
  ["medication", "prescription", "test results", "diagnosis"]

/-- Modelled from the spec: mid-flow general-question signals (§4.3 gives
clinic hours as the example). -/
def generalQuestionKeywords : List String :=
  ["hours", "are you open", "location", "address", "insurance"]

/-- Is the utterance a mid-flow general question (§4.3)? -/
def isGeneralQuestion (u : String) : Bool :=
  containsAny u generalQuestionKeywords

/-- Modelled from the spec: intent classification into a flow kind (§4.3,
`INTENT_SELECTION` pattern signals). -/
def classifyIntent (u : String) : Option FlowKind :=
  if containsAny u ["appointment", "book", "schedule"] = true then some .appointment
  else if containsAny u ["refill"] = true then some .refill
  else if containsAny u ["call me back", "call back", "callback"] = true then some .callback
  else if containsAny u generalQuestionKeywords = true then some .general
  else none

/-- Modelled from the spec: affirmative responses in `CONFIRMATION` (§4.3). -/
def isAffirmative (u : String) : Bool :=
  containsAny u ["yes", "correct", "that is right", "confirm"]

/-- Keyword by which a caller names a slot in a correction (§4.3). -/
def slotKeyword : SlotName → String
  | .name => "name"
  | .apptType => "type"
  | .date => "date"
  | .time => "time"
  | .preferredTime => "time"

/-- Modelled from the spec: which slot a `CONFIRMATION` correction names
(§4.3: "a correction re-enters SLOT_COLLECTION with the named slot
cleared"). -/
def correctionSlot (flow : FlowKind) (u : String) : Option SlotName :=
  (slotDefs flow).find? (fun n => containsSub u (slotKeyword n))

/-! ## Slot filling -/

/-- Look up a collected slot value. -/
def lookupSlot : List (SlotName × String) → SlotName → Option String
  | [], _ => none
  | p :: ps, n => if p.1 = n then some p.2 else lookupSlot ps n

/-- Modelled from the spec: apply the Entity Extractor's output across all
unfilled slots of the locked flow (§4.1, §4.3); only validated candidates for
still-unfilled slots of the flow are taken. -/
def fillSlots (flow : FlowKind) : List (SlotName × String) → List (SlotName × String) → List (SlotName × String)
  | slots, [] => slots
  | slots, (n, v) :: rest =>
    if n ∈ slotDefs flow ∧ lookupSlot slots n = none ∧ validateSlot n v = true
    then fillSlots flow (slots ++ [(n, v)]) rest
    else fillSlots flow slots rest

/-- Modelled from the spec: a flow is complete exactly when every slot of its
definition holds a value passing its validator (§3). -/
def flowComplete (flow : FlowKind) (slots : List (SlotName × String)) : Bool :=
  (slotDefs flow).all (fun n =>
    match lookupSlot slots n with
    | some v => validateSlot n v
    | none => false)

/-- Modelled from the spec: the extractor's usable output for a turn — §4.2
treats entities from an utterance recognised below the confidence threshold
as unusable, and ambiguous/invalid candidates are left unfilled (§4.1). -/
def usableEntities (cfg : Config) (e : TurnEvent) : List (SlotName × String) :=
  if e.confidence < cfg.confidenceThreshold then []
  else e.entities.filter (fun p => validateSlot p.1 p.2)

/-- Modelled from the spec: a turn counts as recognised (§4.2: it "yields at
least one usable entity or valid intent" under adequate confidence); only
such a turn resets the unrecognized-turn counter. -/
def turnRecognized (cfg : Config) (e : TurnEvent) : Bool :=
  if e.confidence < cfg.confidenceThreshold then false
  else !(usableEntities cfg e).isEmpty || (classifyIntent e.utterance).isSome

/-! ## Escalation Rule Engine -/

/-- Modelled from the spec: the Escalation Rule Engine (§4.2), absent from the
source tree.  Evaluates the rules in priority order and stops at the first
match, returning the escalation (if any) together with the new
unrecognized-turn counter.  A collaborator failure is checked first: per §4.5
and §7(b) a failed recognition produces no transcript, so keyword rules
cannot apply and the failure is always surfaced as `provider_instability`.
A mid-flow general question neither counts against nor resets the counter
(§4.3). -/
def escalationCheck (cfg : Config) (s : Session) (e : TurnEvent) :
    Option (Reason × Severity) × Nat :=
  if e.providerFailure = true then
    (some (.provider_instability, .standard), s.unrecognized)
  else if containsAny e.utterance emergencyKeywords = true then
    (some (.medical_emergency_keyword, .emergency), s.unrecognized)
  else if containsAny e.utterance humanRequestKeywords = true then
    (some (.requested_human, .standard), s.unrecognized)
  else if containsAny e.utterance medicalRiskKeywords = true then
    (some (.medical_risk_intent, .standard), s.unrecognized)
  else if isGeneralQuestion e.utterance = true then
    (none, s.unrecognized)
  else if turnRecognized cfg e = true then
    (none, 0)
  else if 3 ≤ s.unrecognized + 1 then
    (some (.failed_understanding_3_turns, .standard), s.unrecognized + 1)
  else
    (none, s.unrecognized + 1)

/-! ## Slot-Filling State Machine -/

/-- Modelled from the spec: the `GREETING`/`INTENT_SELECTION` step (§4.3): a
recognised flow is locked, the same utterance's entities are applied, and the
session moves to `SLOT_COLLECTION` (or straight to `CONFIRMATION` when every
slot is already filled); otherwise the session sits in `INTENT_SELECTION`. -/
def intentStep (cfg : Config) (s : Session) (e : TurnEvent) : Session :=
  match classifyIntent e.utterance with
  | some f =>
    if flowComplete f (fillSlots f s.slots (usableEntities cfg e)) = true
    then { s with flow := f, slots := fillSlots f s.slots (usableEntities cfg e),
                  state := .confirmation }
    else { s with flow := f, slots := fillSlots f s.slots (usableEntities cfg e),
                  state := .slotCollection }
  | none => { s with state := .intentSelection }

/-- Modelled from the spec: the Slot-Filling State Machine step (§4.3),
absent from the source tree.  Runs only on a turn the Escalation Rule Engine
let through.  A mid-flow general question is answered in place; a
`CONFIRMATION` response below the confidence threshold is re-prompted rather
than acted on. -/
def machineStep (cfg : Config) (s : Session) (e : TurnEvent) : Session :=
  match s.state with
  | .greeting => intentStep cfg s e
  | .intentSelection => intentStep cfg s e
  | .slotCollection =>
    if isGeneralQuestion e.utterance = true then s
    else if flowComplete s.flow (fillSlots s.flow s.slots (usableEntities cfg e)) = true
    then { s with slots := fillSlots s.flow s.slots (usableEntities cfg e),
                  state := .confirmation }
    else { s with slots := fillSlots s.flow s.slots (usableEntities cfg e) }
  | .confirmation =>
    if e.confidence < cfg.confidenceThreshold then s
    else if isAffirmative e.utterance = true then { s with state := .completed }
    else
      match correctionSlot s.flow e.utterance with
      | some n => { s with slots := s.slots.filter (fun p => decide (p.1 ≠ n)),
                           state := .slotCollection }
      | none => s
  | _ => s

/-! ## Outcome records and roles -/

/-- Staff roles of the persistence/notification collaborator's routing table
(§6). -/
inductive Role where
  | staff
  | doctor
deriving DecidableEq, Repr

/-- Modelled from the spec: flow-kind routing of task records (§6:
appointment/callback/general → staff, refill → doctor). -/
def roleFor : FlowKind → Role
  | .appointment => .staff
  | .callback => .staff
  | .general => .staff
  | .noFlow => .staff
  | .refill => .doctor

/-- Modelled from the spec: routing of escalation records (§6:
medical-emergency → doctor, other escalations → staff). -/
def escalationRole : Reason → Role
  | .medical_emergency_keyword => .doctor
  | _ => .staff

/-- Modelled from the spec: a task record handed to the
persistence/notification collaborator (§6). -/
structure TaskRecord where
  flow_kind : FlowKind
  assigned_role : Role
  slots : List (SlotName × String)
  created_at : Nat
deriving DecidableEq, Repr

/-- Modelled from the spec: an escalation record handed to the
persistence/notification collaborator (§6). -/
structure EscalationRecord where
  reason : Reason
  severity : Severity
  transcript : List String
  created_at : Nat
deriving DecidableEq, Repr

/-- A record emitted at a terminal transition. -/
inductive OutcomeRecord where
  | task (t : TaskRecord)
  | escalation (r : EscalationRecord)
deriving DecidableEq, Repr

/-- Modelled from the spec: build the task record for a completed session
(§4.6, §6). -/
def buildTaskRecord (s : Session) (now : Nat) : TaskRecord :=
  ⟨s.flow, roleFor s.flow, s.slots, now⟩

/-- Modelled from the spec: build the escalation record (reason, severity and
the full turn history) for an escalated or failed session (§4.6, §6). -/
def buildEscalationRecord (s : Session) (r : Reason) (v : Severity) (now : Nat) : EscalationRecord :=
  ⟨r, v, s.transcript, now⟩

/-- Is this an escalation record? -/
def isEscRecord : OutcomeRecord → Bool
  | .escalation _ => true
  | .task _ => false

/-- Number of escalation records in a batch. -/
def escCount (rs : List OutcomeRecord) : Nat :=
  (rs.filter isEscRecord).length

/-- What one turn hands back to the transport layer: outcome records emitted
on a terminal transition, and whether the generation collaborator was
invoked. -/
structure TurnOutput where
  records : List OutcomeRecord
  genCall : Bool
deriving DecidableEq, Repr

/-! ## Dialogue Turn Orchestrator -/

/-- The session after an escalating turn: terminal `ESCALATED` state, the
decision attached immutably, counters and transcript updated. -/
def escalateSession (s : Session) (e : TurnEvent) (r : Reason) (v : Severity) (k : Nat) : Session :=
  { s with state := .escalated, escalation := some (r, v), unrecognized := k,
           turnCount := s.turnCount + 1,
           transcript := s.transcript ++ [e.utterance],
           lastActivity := e.time }

/-- The session's bookkeeping update on a non-escalating turn (counters,
transcript, activity timestamp), before the state machine steps. -/
def advanceSession (s : Session) (e : TurnEvent) (k : Nat) : Session :=
  { s with unrecognized := k, turnCount := s.turnCount + 1,
           transcript := s.transcript ++ [e.utterance],
           lastActivity := e.time }

/-- Modelled from the spec: the Dialogue Turn Orchestrator's per-turn control
loop (§4.5), absent from the source tree.  A terminal session is immutable
and produces nothing.  Otherwise the Escalation Rule Engine runs strictly
first; on escalation the session becomes `ESCALATED`, one escalation record
is emitted and no generation call is made.  Otherwise the state machine
steps, a task record is emitted exactly on the transition to `COMPLETED`,
and the generation collaborator phrases the reply. -/
def step (cfg : Config) (s : Session) (e : TurnEvent) : Session × TurnOutput :=
  if isTerminal s.state = true then (s, ⟨[], false⟩)
  else
    match escalationCheck cfg s e with
    | (some (r, v), k) =>
      (escalateSession s e r v k,
       ⟨[.escalation (buildEscalationRecord (escalateSession s e r v k) r v e.time)], false⟩)
    | (none, k) =>
      if (machineStep cfg (advanceSession s e k) e).state = .completed
      then (machineStep cfg (advanceSession s e k) e,
            ⟨[.task (buildTaskRecord (machineStep cfg (advanceSession s e k) e) e.time)], true⟩)
      else (machineStep cfg (advanceSession s e k) e, ⟨[], true⟩)

/-- Run a session through a list of turns, collecting every emitted record. -/
def run (cfg : Config) : Session → List TurnEvent → Session × List OutcomeRecord
  | s, [] => (s, [])
  | s, e :: es =>
    let r1 := step cfg s e
    let r2 := run cfg r1.1 es
    (r2.1, r1.2.records ++ r2.2)

/-- Modelled from the spec: the Session Manager's idle sweep (§4.4): an idle
session with no terminal state is moved to `FAILED` and emitted like an
escalation with reason `session_timeout`. -/
def sweepTimeout (s : Session) (now : Nat) : Session × TurnOutput :=
  if isTerminal s.state = true then (s, ⟨[], false⟩)
  else
    let s' := { s with state := .failed,
                       escalation := some (.session_timeout, .standard) }
    (s', ⟨[.escalation (buildEscalationRecord s' .session_timeout .standard now)], false⟩)

/-! ## Outcome Emitter -/

/-- Modelled from the spec: the Outcome Emitter's dedup store — emission is
keyed by call reference and terminal state (§8). -/
structure EmitterState where
  keys : List (String × SessionState)
  records : List OutcomeRecord
deriving DecidableEq, Repr

/-- The emission key of a session. -/
def emitKey (s : Session) : String × SessionState :=
  (s.callRef, s.state)

/-- The record the Outcome Emitter builds for a terminal session (§4.6). -/
def outcomeRecordOf (s : Session) (now : Nat) : OutcomeRecord :=
  if s.state = .completed then .task (buildTaskRecord s now)
  else
    match s.escalation with
    | some (r, v) => .escalation (buildEscalationRecord s r v now)
    | none => .escalation (buildEscalationRecord s .session_timeout .standard now)

/-- Modelled from the spec: the Outcome Emitter (§4.6, §8): packages a
terminal session into a record, keyed by call reference and terminal state so
that replaying the same terminal session does not create duplicates. -/
def emitOutcome (st : EmitterState) (s : Session) (now : Nat) : EmitterState :=
  if isTerminal s.state = false then st
  else if emitKey s ∈ st.keys then st
  else ⟨emitKey s :: st.keys, outcomeRecordOf s now :: st.records⟩

/-! ## Frontend: demo authentication (`frontend/src/context/AuthContext.tsx`) -/

/-- The dashboard's demo roles (`DemoRole` in `AuthContext.tsx`). -/
inductive DemoRole where
  | staff
  | doctor
deriving DecidableEq, Repr

/-- The signed-in user (`AuthUser` in `AuthContext.tsx`). -/
structure AuthUser where
  name : String
  email : String
  role : DemoRole
deriving DecidableEq, Repr

/-- A built-in demo account (`AuthUser & \x7b password \x7d`). -/
structure DemoAccount where
  name : String
  email : String
  password : String
  role : DemoRole
deriving DecidableEq, Repr

/-- The two built-in demo accounts (`DEMO_ACCOUNTS` in `AuthContext.tsx`). -/
def DEMO_ACCOUNTS : List DemoAccount :=
  [⟨"Aarav Staff", "staff@cliniqai.demo", "staff123", .staff⟩,
   ⟨"Dr. Meera", "doctor@cliniqai.demo", "doctor123", .doctor⟩]

/-- The value `signIn` returns to the caller. -/
structure SignInResult where
  ok : Bool
  error : Option String
deriving DecidableEq, Repr

/-- The account-matching predicate of `signIn`:
`a.email.toLowerCase() === email.trim().toLowerCase() && a.password === password`
(case-insensitive on the trimmed email, exact on the password). -/
def credentialsMatch (a : DemoAccount) (email password : String) : Bool :=
  decide (codes a.email = codes (trimStr email)) && decide (a.password = password)

/-- Embedding of `signIn` from `AuthContext.tsx`: looks the input up in
`DEMO_ACCOUNTS`; on failure returns the fixed error and leaves the stored
user unchanged, on success stores the account's user object (without the
password) and returns ok. -/
def signIn (stored : Option AuthUser) (email password : String) :
    SignInResult × Option AuthUser :=
  match DEMO_ACCOUNTS.find? (fun a => credentialsMatch a email password) with
  | none => (⟨false, some "Invalid demo credentials."⟩, stored)
  | some found => (⟨true, none⟩, some ⟨found.name, found.email, found.role⟩)

/-! ## Frontend: role-gated routing (the application router component) -/

/-- What a route component renders: a redirect (`Navigate`) or the protected
element. -/
inductive RenderResult (α : Type) where
  | redirect (dest : String)
  | render (el : α)
deriving DecidableEq, Repr

/-- The dashboard path of each role, as hard-coded in the router. -/
def dashboardFor : DemoRole → String
  | .staff => "/dashboard/staff"
  | .doctor => "/dashboard/doctor"

/-- Embedding of the `RoleRoute` component: no user redirects to `/signin`;
a user whose role is outside the allow list is redirected to their own
dashboard (with the component's unreachable `/signin` fallback kept);
otherwise the protected element renders. -/
def roleRoute {α : Type} (user : Option AuthUser) (allow : List DemoRole)
    (element : α) : RenderResult α :=
  match user with
  | none => .redirect "/signin"
  | some u =>
    if u.role ∈ allow then .render element
    else if u.role = .staff then .redirect "/dashboard/staff"
    else if u.role = .doctor then .redirect "/dashboard/doctor"
    else .redirect "/signin"

/-- Embedding of the `IndexRoute` component: sends a signed-in user to their
role dashboard and everyone else to `/signin`. -/
def indexRoute (user : Option AuthUser) : RenderResult Unit :=
  match user with
  | none => .redirect "/signin"
  | some u =>
    if u.role = .staff then .redirect "/dashboard/staff"
    else if u.role = .doctor then .redirect "/dashboard/doctor"
    else .redirect "/signin"

/-- The slot invariant of §3: whenever a session sits in `CONFIRMATION` or
`COMPLETED`, every slot of its flow holds a validated value. -/
def SlotsInv (s : Session) : Prop :=
  (s.state = .confirmation ∨ s.state = .completed) →
    flowComplete s.flow s.slots = true

/-- A turn of §4.2 rule 4: delivered (no collaborator failure), matching no
keyword rule, not a general question, with recognition confidence below the
configured threshold and no extracted entity. -/
def badTurn (cfg : Config) (e : TurnEvent) : Prop :=
  e.providerFailure = false ∧
  containsAny e.utterance emergencyKeywords = false ∧
  containsAny e.utterance humanRequestKeywords = false ∧
  containsAny e.utterance medicalRiskKeywords = false ∧
  isGeneralQuestion e.utterance = false ∧
  e.confidence < cfg.confidenceThreshold ∧
  e.entities = []

/-- A turn that yields at least one usable entity (§4.2): delivered, matching
no keyword rule, not a general question, adequately recognised, with a
validated extracted entity. -/
def usableTurn (cfg : Config) (e : TurnEvent) : Prop :=
  e.providerFailure = false ∧
  containsAny e.utterance emergencyKeywords = false ∧
  containsAny e.utterance humanRequestKeywords = false ∧
  containsAny e.utterance medicalRiskKeywords = false ∧
  isGeneralQuestion e.utterance = false ∧
  cfg.confidenceThreshold ≤ e.confidence ∧
  usableEntities cfg e ≠ []

instance (cfg : Config) (e : TurnEvent) : Decidable (badTurn cfg e) := by
  unfold badTurn
  infer_instance

instance (cfg : Config) (e : TurnEvent) : Decidable (usableTurn cfg e) := by
  unfold usableTurn
  infer_instance

/-! ## Helper lemmas -/

theorem escCount_append (a b : List OutcomeRecord) :
    escCount (a ++ b) = escCount a + escCount b := by
  simp [escCount, List.filter_append]

theorem run_term (cfg : Config) :
    ∀ (es : List TurnEvent) (s : Session), isTerminal s.state = true →
      run cfg s es = (s, []) := by
  intro es
  induction es with
  | nil => intro s _; rfl
  | cons e es ih =>
    intro s h
    simp [run, step, h, ih s h]

theorem machineStep_eq_intent (cfg : Config) (s : Session) (e : TurnEvent)
    (hs : s.state = .greeting ∨ s.state = .intentSelection) :
    machineStep cfg s e = intentStep cfg s e := by
  unfold machineStep
  rcases hs with hs | hs <;> rw [hs]

theorem machineStep_eq_slotC (cfg : Config) (s : Session) (e : TurnEvent)
    (hs : s.state = .slotCollection) :
    machineStep cfg s e =
      (if isGeneralQuestion e.utterance = true then s
       else if flowComplete s.flow (fillSlots s.flow s.slots (usableEntities cfg e)) = true
       then { s with slots := fillSlots s.flow s.slots (usableEntities cfg e),
                     state := .confirmation }
       else { s with slots := fillSlots s.flow s.slots (usableEntities cfg e) }) := by
  unfold machineStep
  rw [hs]

theorem machineStep_eq_confirm (cfg : Config) (s : Session) (e : TurnEvent)
    (hs : s.state = .confirmation) :
    machineStep cfg s e =
      (if e.confidence < cfg.confidenceThreshold then s
       else if isAffirmative e.utterance = true then { s with state := .completed }
       else
         match correctionSlot s.flow e.utterance with
         | some n => { s with slots := s.slots.filter (fun p => decide (p.1 ≠ n)),
                              state := .slotCollection }
         | none => s) := by
  unfold machineStep
  rw [hs]

theorem machineStep_eq_term (cfg : Config) (s : Session) (e : TurnEvent)
    (hs : isTerminal s.state = true) :
    machineStep cfg s e = s := by
  unfold machineStep
  cases h : s.state
  case completed => rfl
  case escalated => rfl
  case failed => rfl
  all_goals (rw [h] at hs; simp [isTerminal] at hs)

theorem intentStep_state (cfg : Config) (s : Session) (e : TurnEvent) :
    (intentStep cfg s e).state = .intentSelection ∨
    (intentStep cfg s e).state = .slotCollection ∨
    (intentStep cfg s e).state = .confirmation := by
  unfold intentStep
  cases hci : classifyIntent e.utterance with
  | none => simp
  | some f =>
    dsimp only
    split <;> simp

theorem intentStep_preserves (cfg : Config) (s : Session) (e : TurnEvent) :
    (intentStep cfg s e).unrecognized = s.unrecognized ∧
    (intentStep cfg s e).callRef = s.callRef ∧
    (intentStep cfg s e).escalation = s.escalation ∧
    (intentStep cfg s e).transcript = s.transcript := by
  unfold intentStep
  cases hci : classifyIntent e.utterance with
  | none => simp
  | some f =>
    dsimp only
    split <;> simp

theorem machineStep_state_cases (cfg : Config) (s : Session) (e : TurnEvent) :
    (machineStep cfg s e).state = s.state ∨
    (machineStep cfg s e).state = .intentSelection ∨
    (machineStep cfg s e).state = .slotCollection ∨
    (machineStep cfg s e).state = .confirmation ∨
    ((machineStep cfg s e).state = .completed ∧ s.state = .confirmation) := by
  cases hs : s.state
  case greeting =>
    rw [machineStep_eq_intent cfg s e (Or.inl hs)]
    rcases intentStep_state cfg s e with h | h | h <;> simp [h]
  case intentSelection =>
    rw [machineStep_eq_intent cfg s e (Or.inr hs)]
    rcases intentStep_state cfg s e with h | h | h <;> simp [h]
  case slotCollection =>
    rw [machineStep_eq_slotC cfg s e hs]
    split
    · simp [hs]
    · split <;> simp [hs]
  case confirmation =>
    rw [machineStep_eq_confirm cfg s e hs]
    split
    · simp [hs]
    · split
      · simp [hs]
      · split <;> simp [hs]
  case completed =>
    rw [machineStep_eq_term cfg s e (by simp [hs, isTerminal])]
    simp [hs]
  case escalated =>
    rw [machineStep_eq_term cfg s e (by simp [hs, isTerminal])]
    simp [hs]
  case failed =>
    rw [machineStep_eq_term cfg s e (by simp [hs, isTerminal])]
    simp [hs]

theorem machineStep_term (cfg : Config) (s : Session) (e : TurnEvent)
    (h : isTerminal s.state = false) :
    (machineStep cfg s e).state = .completed ∨
    isTerminal (machineStep cfg s e).state = false := by
  rcases machineStep_state_cases cfg s e with h1 | h1 | h1 | h1 | ⟨h1, _⟩
  · right; rw [h1]; exact h
  · right; rw [h1]; rfl
  · right; rw [h1]; rfl
  · right; rw [h1]; rfl
  · left; exact h1

theorem machineStep_not_escalated (cfg : Config) (s : Session) (e : TurnEvent)
    (h : isTerminal s.state = false) :
    (machineStep cfg s e).state ≠ .escalated := by
  rcases machineStep_term cfg s e h with h1 | h1
  · simp [h1]
  · intro hc
    rw [hc] at h1
    simp [isTerminal] at h1

theorem machineStep_lowconf (cfg : Config) (s : Session) (e : TurnEvent)
    (hc : e.confidence < cfg.confidenceThreshold)
    (h : isTerminal s.state = false) :
    isTerminal (machineStep cfg s e).state = false := by
  cases hs : s.state
  case greeting =>
    rw [machineStep_eq_intent cfg s e (Or.inl hs)]
    rcases intentStep_state cfg s e with h1 | h1 | h1 <;> simp [h1, isTerminal]
  case intentSelection =>
    rw [machineStep_eq_intent cfg s e (Or.inr hs)]
    rcases intentStep_state cfg s e with h1 | h1 | h1 <;> simp [h1, isTerminal]
  case slotCollection =>
    rw [machineStep_eq_slotC cfg s e hs]
    split
    · simp [hs, isTerminal]
    · split <;> simp [isTerminal, hs]
  case confirmation =>
    rw [machineStep_eq_confirm cfg s e hs, if_pos hc]
    simp [hs, isTerminal]
  case completed => rw [hs] at h; simp [isTerminal] at h
  case escalated => rw [hs] at h; simp [isTerminal] at h
  case failed => rw [hs] at h; simp [isTerminal] at h

theorem machineStep_preserves (cfg : Config) (s : Session) (e : TurnEvent) :
    (machineStep cfg s e).unrecognized = s.unrecognized ∧
    (machineStep cfg s e).callRef = s.callRef ∧
    (machineStep cfg s e).escalation = s.escalation ∧
    (machineStep cfg s e).transcript = s.transcript := by
  cases hs : s.state
  case greeting =>
    rw [machineStep_eq_intent cfg s e (Or.inl hs)]
    exact intentStep_preserves cfg s e
  case intentSelection =>
    rw [machineStep_eq_intent cfg s e (Or.inr hs)]
    exact intentStep_preserves cfg s e
  case slotCollection =>
    rw [machineStep_eq_slotC cfg s e hs]
    split
    · simp
    · split <;> simp
  case confirmation =>
    rw [machineStep_eq_confirm cfg s e hs]
    split
    · simp
    · split
      · simp
      · split <;> simp
  case completed =>
    rw [machineStep_eq_term cfg s e (by simp [hs, isTerminal])]
    simp
  case escalated =>
    rw [machineStep_eq_term cfg s e (by simp [hs, isTerminal])]
    simp
  case failed =>
    rw [machineStep_eq_term cfg s e (by simp [hs, isTerminal])]
    simp

theorem step_term (cfg : Config) (s : Session) (e : TurnEvent)
    (h : isTerminal s.state = true) :
    step cfg s e = (s, ⟨[], false⟩) := by
  simp [step, h]

theorem step_shape (cfg : Config) (s : Session) (e : TurnEvent)
    (h : isTerminal s.state = false) :
    ((step cfg s e).1.state = .escalated ∧ escCount (step cfg s e).2.records = 1) ∨
    ((step cfg s e).1.state = .completed ∧ escCount (step cfg s e).2.records = 0) ∨
    (isTerminal (step cfg s e).1.state = false ∧ escCount (step cfg s e).2.records = 0) := by
  unfold step
  rw [if_neg (by simp [h])]
  cases hck : escalationCheck cfg s e with
  | mk o k =>
    cases o with
    | some rv =>
      obtain ⟨r, v⟩ := rv
      left
      exact ⟨by simp [escalateSession], by simp [escCount, isEscRecord]⟩
    | none =>
      dsimp only
      have hterm : isTerminal (advanceSession s e k).state = false := by
        simp [advanceSession, h]
      rcases machineStep_term cfg (advanceSession s e k) e hterm with hm | hm
      · right; left
        rw [if_pos hm]
        exact ⟨hm, by simp [escCount, isEscRecord]⟩
      · right; right
        have hnc : ¬ (machineStep cfg (advanceSession s e k) e).state = .completed := by
          intro hc
          rw [hc] at hm
          simp [isTerminal] at hm
        rw [if_neg hnc]
        exact ⟨hm, by simp [escCount]⟩

theorem run_emission (cfg : Config) :
    ∀ (es : List TurnEvent) (s : Session), isTerminal s.state = false →
      ((run cfg s es).1.state = .escalated → escCount (run cfg s es).2 = 1) ∧
      ((run cfg s es).1.state ≠ .escalated → escCount (run cfg s es).2 = 0) := by
  intro es
  induction es with
  | nil =>
    intro s h
    refine ⟨fun hesc => ?_, fun _ => ?_⟩
    · simp only [run] at hesc
      rw [hesc] at h
      simp [isTerminal] at h
    · simp [run, escCount]
  | cons e es ih =>
    intro s h
    have hrun : run cfg s (e :: es) =
        ((run cfg (step cfg s e).1 es).1,
         (step cfg s e).2.records ++ (run cfg (step cfg s e).1 es).2) := rfl
    rcases step_shape cfg s e h with ⟨h1, h2⟩ | ⟨h1, h2⟩ | ⟨h1, h2⟩
    · have ht : isTerminal (step cfg s e).1.state = true := by simp [h1, isTerminal]
      have hr := run_term cfg es _ ht
      rw [hrun, hr]
      refine ⟨fun _ => ?_, fun hne => ?_⟩
      · simpa [escCount] using h2
      · exact absurd h1 (by simpa using hne)
    · have ht : isTerminal (step cfg s e).1.state = true := by simp [h1, isTerminal]
      have hr := run_term cfg es _ ht
      rw [hrun, hr]
      refine ⟨fun hesc => ?_, fun _ => ?_⟩
      · rw [h1] at hesc
        simp at hesc
      · simpa [escCount] using h2
    · obtain ⟨ih1, ih2⟩ := ih (step cfg s e).1 h1
      rw [hrun]
      refine ⟨fun hesc => ?_, fun hne => ?_⟩
      · rw [escCount_append, h2, ih1 (by simpa using hesc)]
      · rw [escCount_append, h2, ih2 (by simpa using hne)]

theorem intentStep_inv (cfg : Config) (s : Session) (e : TurnEvent) :
    SlotsInv (intentStep cfg s e) := by
  unfold intentStep
  cases hci : classifyIntent e.utterance with
  | none =>
    intro hc
    rcases hc with hc | hc <;> simp at hc
  | some f =>
    dsimp only
    split
    · rename_i hguard
      intro _
      simpa using hguard
    · intro hc
      rcases hc with hc | hc <;> simp at hc

theorem machineStep_inv (cfg : Config) (s : Session) (e : TurnEvent)
    (hinv : SlotsInv s) : SlotsInv (machineStep cfg s e) := by
  cases hs : s.state
  case greeting =>
    rw [machineStep_eq_intent cfg s e (Or.inl hs)]
    exact intentStep_inv cfg s e
  case intentSelection =>
    rw [machineStep_eq_intent cfg s e (Or.inr hs)]
    exact intentStep_inv cfg s e
  case slotCollection =>
    rw [machineStep_eq_slotC cfg s e hs]
    split
    · intro hc
      rcases hc with hc | hc <;> simp [hs] at hc
    · split
      · rename_i hguard
        intro _
        simpa using hguard
      · intro hc
        rcases hc with hc | hc <;> simp [hs] at hc
  case confirmation =>
    rw [machineStep_eq_confirm cfg s e hs]
    split
    · intro _
      exact hinv (Or.inl hs)
    · split
      · intro _
        simpa using hinv (Or.inl hs)
      · split
        · intro hc
          rcases hc with hc | hc <;> simp at hc
        · intro _
          exact hinv (Or.inl hs)
  case completed =>
    rw [machineStep_eq_term cfg s e (by simp [hs, isTerminal])]
    exact hinv
  case escalated =>
    rw [machineStep_eq_term cfg s e (by simp [hs, isTerminal])]
    exact hinv
  case failed =>
    rw [machineStep_eq_term cfg s e (by simp [hs, isTerminal])]
    exact hinv

theorem step_inv (cfg : Config) (s : Session) (e : TurnEvent)
    (hinv : SlotsInv s) : SlotsInv (step cfg s e).1 := by
  by_cases h : isTerminal s.state = true
  · rw [step_term cfg s e h]
    exact hinv
  · unfold step
    rw [if_neg h]
    cases hck : escalationCheck cfg s e with
    | mk o k =>
      cases o with
      | some rv =>
        obtain ⟨r, v⟩ := rv
        dsimp only
        intro hc
        rcases hc with hc | hc <;> simp [escalateSession] at hc
      | none =>
        dsimp only
        have hadv : SlotsInv (advanceSession s e k) := by
          intro hc
          have := hinv (by simpa [advanceSession] using hc)
          simpa [advanceSession] using this
        split
        · exact machineStep_inv cfg _ e hadv
        · exact machineStep_inv cfg _ e hadv

theorem run_inv (cfg : Config) :
    ∀ (es : List TurnEvent) (s : Session), SlotsInv s → SlotsInv (run cfg s es).1 := by
  intro es
  induction es with
  | nil => intro s hinv; exact hinv
  | cons e es ih =>
    intro s hinv
    exact ih (step cfg s e).1 (step_inv cfg s e hinv)

theorem badTurn_check (cfg : Config) (s : Session) (e : TurnEvent)
    (hb : badTurn cfg e) :
    escalationCheck cfg s e =
      (if 3 ≤ s.unrecognized + 1
       then (some (.failed_understanding_3_turns, .standard), s.unrecognized + 1)
       else (none, s.unrecognized + 1)) := by
  obtain ⟨h1, h2, h3, h4, h5, h6, h7⟩ := hb
  have hrec : turnRecognized cfg e = false := by
    simp [turnRecognized, h6]
  simp [escalationCheck, h1, h2, h3, h4, h5, hrec]

theorem usableTurn_check (cfg : Config) (s : Session) (e : TurnEvent)
    (hg : usableTurn cfg e) :
    escalationCheck cfg s e = (none, 0) := by
  obtain ⟨h1, h2, h3, h4, h5, h6, h7⟩ := hg
  have hnl : ¬ e.confidence < cfg.confidenceThreshold := Nat.not_lt.mpr h6
  have hrec : turnRecognized cfg e = true := by
    cases husable : usableEntities cfg e with
    | nil => exact absurd husable h7
    | cons a l => simp [turnRecognized, hnl, husable]
  simp [escalationCheck, h1, h2, h3, h4, h5, hrec]

theorem badTurn_step_lt (cfg : Config) (s : Session) (e : TurnEvent)
    (h : isTerminal s.state = false) (hb : badTurn cfg e)
    (hlt : s.unrecognized + 1 < 3) :
    (step cfg s e).1.unrecognized = s.unrecognized + 1 ∧
    isTerminal (step cfg s e).1.state = false ∧
    (step cfg s e).2.records = [] := by
  have hck := badTurn_check cfg s e hb
  rw [if_neg (by omega)] at hck
  have hlc : e.confidence < cfg.confidenceThreshold := hb.2.2.2.2.2.1
  unfold step
  rw [if_neg (by simp [h]), hck]
  dsimp only
  have hterm : isTerminal (advanceSession s e (s.unrecognized + 1)).state = false := by
    simpa [advanceSession] using h
  have hmlc := machineStep_lowconf cfg (advanceSession s e (s.unrecognized + 1)) e hlc hterm
  have hnc : ¬ (machineStep cfg (advanceSession s e (s.unrecognized + 1)) e).state = .completed := by
    intro hcc
    rw [hcc] at hmlc
    simp [isTerminal] at hmlc
  rw [if_neg hnc]
  refine ⟨?_, hmlc, rfl⟩
  have hp := (machineStep_preserves cfg (advanceSession s e (s.unrecognized + 1)) e).1
  simpa [advanceSession] using hp

theorem badTurn_step_ge (cfg : Config) (s : Session) (e : TurnEvent)
    (h : isTerminal s.state = false) (hb : badTurn cfg e)
    (hge : 3 ≤ s.unrecognized + 1) :
    (step cfg s e).1.state = .escalated ∧
    (step cfg s e).1.escalation = some (.failed_understanding_3_turns, .standard) := by
  have hck := badTurn_check cfg s e hb
  rw [if_pos hge] at hck
  unfold step
  rw [if_neg (by simp [h]), hck]
  dsimp only
  exact ⟨rfl, rfl⟩

theorem usableTurn_step (cfg : Config) (s : Session) (e : TurnEvent)
    (h : isTerminal s.state = false) (hg : usableTurn cfg e) :
    (step cfg s e).1.unrecognized = 0 ∧
    (step cfg s e).1.state ≠ .escalated ∧
    escCount (step cfg s e).2.records = 0 := by
  have hck := usableTurn_check cfg s e hg
  unfold step
  rw [if_neg (by simp [h]), hck]
  dsimp only
  have hterm : isTerminal (advanceSession s e 0).state = false := by
    simpa [advanceSession] using h
  have hne := machineStep_not_escalated cfg (advanceSession s e 0) e hterm
  have hp := (machineStep_preserves cfg (advanceSession s e 0) e).1
  split
  · exact ⟨by simpa [advanceSession] using hp, hne, by simp [escCount, isEscRecord]⟩
  · exact ⟨by simpa [advanceSession] using hp, hne, by simp [escCount]⟩

theorem step_task_mem (cfg : Config) (s : Session) (e : TurnEvent) (t : TaskRecord)
    (hm : OutcomeRecord.task t ∈ (step cfg s e).2.records) :
    t.assigned_role = roleFor t.flow_kind := by
  unfold step at hm
  by_cases h : isTerminal s.state = true
  · rw [if_pos h] at hm
    simp at hm
  · rw [if_neg h] at hm
    cases hck : escalationCheck cfg s e with
    | mk o k =>
      rw [hck] at hm
      cases o with
      | some rv =>
        obtain ⟨r, v⟩ := rv
        simp at hm
      | none =>
        dsimp only at hm
        split at hm
        · simp at hm
          rw [hm]
          rfl
        · simp at hm

theorem run_task_mem (cfg : Config) :
    ∀ (es : List TurnEvent) (s : Session) (t : TaskRecord),
      OutcomeRecord.task t ∈ (run cfg s es).2 → t.assigned_role = roleFor t.flow_kind := by
  intro es
  induction es with
  | nil =>
    intro s t hm
    simp [run] at hm
  | cons e es ih =>
    intro s t hm
    have hsplit : (run cfg s (e :: es)).2 =
        (step cfg s e).2.records ++ (run cfg (step cfg s e).1 es).2 := rfl
    rw [hsplit] at hm
    rcases List.mem_append.mp hm with hm | hm
    · exact step_task_mem cfg s e t hm
    · exact ih (step cfg s e).1 t hm

/-! ## Claim theorems -/

/-- C1: in any non-terminal state, an inbound utterance containing an
emergency keyword (such as "I have chest pain") escalates the session within
that same turn — state `ESCALATED`, reason `medical_emergency_keyword`,
severity `emergency` — and the generation collaborator is not called (one
escalation record is emitted instead). -/
theorem emergency_keyword_escalates_immediately (cfg : Config) (s : Session) (e : TurnEvent)
    (hnt : isTerminal s.state = false)
    (hpf : e.providerFailure = false)
    (hkw : containsAny e.utterance emergencyKeywords = true) :
    (step cfg s e).1.state = .escalated ∧
    (step cfg s e).1.escalation = some (.medical_emergency_keyword, .emergency) ∧
    (step cfg s e).2.genCall = false ∧
    escCount (step cfg s e).2.records = 1 := by
  have hck : escalationCheck cfg s e =
      (some (.medical_emergency_keyword, .emergency), s.unrecognized) := by
    simp [escalationCheck, hpf, hkw]
  unfold step
  rw [if_neg (by simp [hnt]), hck]
  exact ⟨rfl, rfl, rfl, rfl⟩

/-- C1 witness: the utterance "I have chest pain" on a fresh session. -/
theorem emergency_keyword_escalates_immediately_witness :
    isTerminal (freshSession "CA1001" 0).state = false ∧
    (step ⟨70⟩ (freshSession "CA1001" 0) ⟨"I have chest pain", 90, [], false, 1⟩).1.state = .escalated ∧
    (step ⟨70⟩ (freshSession "CA1001" 0) ⟨"I have chest pain", 90, [], false, 1⟩).1.escalation
      = some (.medical_emergency_keyword, .emergency) ∧
    (step ⟨70⟩ (freshSession "CA1001" 0) ⟨"I have chest pain", 90, [], false, 1⟩).2.genCall = false := by
  have h := emergency_keyword_escalates_immediately ⟨70⟩ (freshSession "CA1001" 0)
      ⟨"I have chest pain", 90, [], false, 1⟩ (by decide) (by decide) (by decide)
  exact ⟨by decide, h.1, h.2.1, h.2.2.1⟩

/-- C2: a session that ends a run in `ESCALATED` emitted exactly one
escalation record during that run, and any terminal session (`COMPLETED` or
`ESCALATED`) is immutable under further turns, which emit nothing. -/
theorem escalated_emitted_once_and_immutable (cfg : Config) (s : Session)
    (es es2 : List TurnEvent) (h : isTerminal s.state = false) :
    ((run cfg s es).1.state = .escalated → escCount (run cfg s es).2 = 1) ∧
    (isTerminal (run cfg s es).1.state = true →
      run cfg (run cfg s es).1 es2 = ((run cfg s es).1, [])) := by
  exact ⟨(run_emission cfg es s h).1, fun ht => run_term cfg es2 _ ht⟩

/-- C2 witness: a fresh session escalated by "There is a lot of bleeding"
emits exactly one escalation record and ignores a later turn. -/
theorem escalated_emitted_once_and_immutable_witness :
    isTerminal (freshSession "CA1002" 0).state = false ∧
    escCount (run ⟨70⟩ (freshSession "CA1002" 0)
      [⟨"There is a lot of bleeding", 90, [], false, 1⟩]).2 = 1 ∧
    run ⟨70⟩ (run ⟨70⟩ (freshSession "CA1002" 0)
        [⟨"There is a lot of bleeding", 90, [], false, 1⟩]).1
        [⟨"hello", 90, [], false, 2⟩]
      = ((run ⟨70⟩ (freshSession "CA1002" 0)
          [⟨"There is a lot of bleeding", 90, [], false, 1⟩]).1, []) := by
  have h := escalated_emitted_once_and_immutable ⟨70⟩ (freshSession "CA1002" 0)
      [⟨"There is a lot of bleeding", 90, [], false, 1⟩]
      [⟨"hello", 90, [], false, 2⟩] (by decide)
  exact ⟨by decide, h.1 (by decide), h.2 (by decide)⟩

/-- C3: from a clean counter, three consecutive turns below the confidence
threshold with no extracted entity escalate with reason
`failed_understanding_3_turns`, severity `standard`; two such turns followed
by a turn yielding a usable entity reset the counter to zero and no
escalation occurs. -/
theorem failed_understanding_three_turns_and_reset (cfg : Config) (s : Session)
    (e1 e2 eb eg : TurnEvent)
    (h : isTerminal s.state = false) (hu : s.unrecognized = 0)
    (hb1 : badTurn cfg e1) (hb2 : badTurn cfg e2) (hb3 : badTurn cfg eb)
    (hg : usableTurn cfg eg) :
    ((run cfg s [e1, e2, eb]).1.state = .escalated ∧
     (run cfg s [e1, e2, eb]).1.escalation
       = some (.failed_understanding_3_turns, .standard)) ∧
    ((run cfg s [e1, e2, eg]).1.unrecognized = 0 ∧
     (run cfg s [e1, e2, eg]).1.state ≠ .escalated ∧
     escCount (run cfg s [e1, e2, eg]).2 = 0) := by
  have h1lt : s.unrecognized + 1 < 3 := by omega
  obtain ⟨hu1, hterm1, hrec1⟩ := badTurn_step_lt cfg s e1 h hb1 h1lt
  have h2lt : (step cfg s e1).1.unrecognized + 1 < 3 := by omega
  obtain ⟨hu2, hterm2, hrec2⟩ :=
    badTurn_step_lt cfg (step cfg s e1).1 e2 hterm1 hb2 h2lt
  have h3ge : 3 ≤ (step cfg (step cfg s e1).1 e2).1.unrecognized + 1 := by omega
  obtain ⟨hs3, hesc3⟩ :=
    badTurn_step_ge cfg (step cfg (step cfg s e1).1 e2).1 eb hterm2 hb3 h3ge
  obtain ⟨hg0, hgne, hgc⟩ :=
    usableTurn_step cfg (step cfg (step cfg s e1).1 e2).1 eg hterm2 hg
  refine ⟨⟨hs3, hesc3⟩, hg0, hgne, ?_⟩
  have hsplit : (run cfg s [e1, e2, eg]).2 =
      (step cfg s e1).2.records ++
        ((step cfg (step cfg s e1).1 e2).2.records ++
          ((step cfg (step cfg (step cfg s e1).1 e2).1 eg).2.records ++ [])) := rfl
  rw [hsplit, hrec1, hrec2]
  simpa [escCount] using hgc

/-- C3 witness: two garbled turns then "My name is Ana Torres" with a name
entity; and three garbled turns escalating. -/
theorem failed_understanding_three_turns_and_reset_witness :
    isTerminal (freshSession "CA1003" 0).state = false ∧
    (run ⟨70⟩ (freshSession "CA1003" 0)
      [⟨"mm hmm", 40, [], false, 1⟩, ⟨"uh huh", 35, [], false, 2⟩,
       ⟨"erm well", 30, [], false, 3⟩]).1.escalation
      = some (.failed_understanding_3_turns, .standard) ∧
    (run ⟨70⟩ (freshSession "CA1003" 0)
      [⟨"mm hmm", 40, [], false, 1⟩, ⟨"uh huh", 35, [], false, 2⟩,
       ⟨"My name is Ana Torres", 90, [(.name, "Ana Torres")], false, 3⟩]).1.unrecognized = 0 := by
  have h := failed_understanding_three_turns_and_reset ⟨70⟩ (freshSession "CA1003" 0)
      ⟨"mm hmm", 40, [], false, 1⟩ ⟨"uh huh", 35, [], false, 2⟩
      ⟨"erm well", 30, [], false, 3⟩
      ⟨"My name is Ana Torres", 90, [(.name, "Ana Torres")], false, 3⟩
      (by decide) (by decide) (by decide) (by decide) (by decide) (by decide)
  exact ⟨by decide, h.1.2, h.2.1⟩

/-- C4: every escalation decision the rule engine produces carries a reason
from the closed reason-code set; a collaborator failure is always surfaced as
`provider_instability`; the idle sweep emits `session_timeout`. -/
theorem escalation_reason_closed_set (cfg : Config) (s : Session) (e : TurnEvent) (now : Nat) :
    (∀ r v, (escalationCheck cfg s e).1 = some (r, v) →
      (decisionOf (escalationCheck cfg s e).1).reason = some r ∧ r ∈ reasonCodeSet) ∧
    (e.providerFailure = true →
      (escalationCheck cfg s e).1 = some (.provider_instability, .standard)) ∧
    (isTerminal s.state = false →
      (sweepTimeout s now).1.escalation = some (.session_timeout, .standard)) := by
  refine ⟨fun r v hr => ?_, fun hpf => ?_, fun hnt => ?_⟩
  · rw [hr]
    exact ⟨rfl, by cases r <;> simp [reasonCodeSet]⟩
  · simp [escalationCheck, hpf]
  · simp [sweepTimeout, hnt]

/-- C4 witness: a turn whose recognition collaborator failed, on a fresh
session, and the sweep of that session. -/
theorem escalation_reason_closed_set_witness :
    (escalationCheck ⟨70⟩ (freshSession "CA1004" 0) ⟨"", 0, [], true, 1⟩).1
      = some (.provider_instability, .standard) ∧
    Reason.provider_instability ∈ reasonCodeSet ∧
    (sweepTimeout (freshSession "CA1004" 0) 5).1.escalation
      = some (.session_timeout, .standard) := by
  have h := escalation_reason_closed_set ⟨70⟩ (freshSession "CA1004" 0) ⟨"", 0, [], true, 1⟩ 5
  have hp := h.2.1 (by decide)
  exact ⟨hp, (h.1 _ _ hp).2, h.2.2 (by decide)⟩

/-- C5: a session started fresh reaches `COMPLETED` only if every slot of its
locked flow holds a value passing that slot's validator. -/
theorem completed_requires_validated_slots (cfg : Config) (ref : String) (t0 : Nat)
    (es : List TurnEvent)
    (h : (run cfg (freshSession ref t0) es).1.state = .completed) :
    flowComplete (run cfg (freshSession ref t0) es).1.flow
      (run cfg (freshSession ref t0) es).1.slots = true := by
  have hinv : SlotsInv (freshSession ref t0) := by
    intro hc
    rcases hc with hc | hc <;> simp [freshSession] at hc
  exact run_inv cfg es _ hinv (Or.inr h)

/-- C5 witness: a completed refill flow with a validated name slot. -/
theorem completed_requires_validated_slots_witness :
    (run ⟨70⟩ (freshSession "CA1005" 0)
      [⟨"I need a refill", 90, [], false, 1⟩,
       ⟨"My name is John Smith", 90, [(.name, "John Smith")], false, 2⟩,
       ⟨"yes that is correct", 90, [], false, 3⟩]).1.state = .completed ∧
    flowComplete (run ⟨70⟩ (freshSession "CA1005" 0)
        [⟨"I need a refill", 90, [], false, 1⟩,
         ⟨"My name is John Smith", 90, [(.name, "John Smith")], false, 2⟩,
         ⟨"yes that is correct", 90, [], false, 3⟩]).1.flow
      (run ⟨70⟩ (freshSession "CA1005" 0)
        [⟨"I need a refill", 90, [], false, 1⟩,
         ⟨"My name is John Smith", 90, [(.name, "John Smith")], false, 2⟩,
         ⟨"yes that is correct", 90, [], false, 3⟩]).1.slots = true := by
  refine ⟨by decide, ?_⟩
  exact completed_requires_validated_slots ⟨70⟩ "CA1005" 0
    [⟨"I need a refill", 90, [], false, 1⟩,
     ⟨"My name is John Smith", 90, [(.name, "John Smith")], false, 2⟩,
     ⟨"yes that is correct", 90, [], false, 3⟩] (by decide)

/-- C6: the Outcome Emitter is idempotent on terminal sessions — emitting the
same terminal session twice (even at different times) leaves exactly the
records of a single emission, because emission is keyed by call reference and
terminal state. -/
theorem outcome_emitter_idempotent (st : EmitterState) (s : Session) (n1 n2 : Nat)
    (h : isTerminal s.state = true) :
    emitOutcome (emitOutcome st s n1) s n2 = emitOutcome st s n1 := by
  by_cases hk : emitKey s ∈ st.keys
  · have h1 : emitOutcome st s n1 = st := by
      unfold emitOutcome
      rw [if_neg (by simp [h]), if_pos hk]
    rw [h1]
    unfold emitOutcome
    rw [if_neg (by simp [h]), if_pos hk]
  · have h1 : emitOutcome st s n1 =
        ⟨emitKey s :: st.keys, outcomeRecordOf s n1 :: st.records⟩ := by
      unfold emitOutcome
      rw [if_neg (by simp [h]), if_neg hk]
    rw [h1]
    unfold emitOutcome
    rw [if_neg (by simp [h]), if_pos (by simp)]

/-- C6 witness: a completed refill session emitted twice into an empty
store. -/
theorem outcome_emitter_idempotent_witness :
    isTerminal (⟨"CA1006", .completed, .refill, [(.name, "Jo Park")], 3, 0,
      none, ["hi"], 0, 3⟩ : Session).state = true ∧
    emitOutcome (emitOutcome ⟨[], []⟩
        ⟨"CA1006", .completed, .refill, [(.name, "Jo Park")], 3, 0, none, ["hi"], 0, 3⟩ 1)
        ⟨"CA1006", .completed, .refill, [(.name, "Jo Park")], 3, 0, none, ["hi"], 0, 3⟩ 2
      = emitOutcome ⟨[], []⟩
        ⟨"CA1006", .completed, .refill, [(.name, "Jo Park")], 3, 0, none, ["hi"], 0, 3⟩ 1 := by
  exact ⟨by decide, outcome_emitter_idempotent ⟨[], []⟩
    ⟨"CA1006", .completed, .refill, [(.name, "Jo Park")], 3, 0, none, ["hi"], 0, 3⟩ 1 2 (by decide)⟩

/-- C7: task records carry flow kind, assigned role, slots and creation time;
escalation records carry reason, severity, transcript and creation time;
every task record a run emits is routed by the table —
appointment/callback/general to staff, refill to doctor, medical emergency to
doctor. -/
theorem task_record_fields_and_routing :
    (∀ (cfg : Config) (s : Session) (es : List TurnEvent) (t : TaskRecord),
        OutcomeRecord.task t ∈ (run cfg s es).2 →
          t.assigned_role = roleFor t.flow_kind) ∧
    (∀ (s : Session) (now : Nat),
        buildTaskRecord s now = ⟨s.flow, roleFor s.flow, s.slots, now⟩) ∧
    (∀ (s : Session) (r : Reason) (v : Severity) (now : Nat),
        buildEscalationRecord s r v now = ⟨r, v, s.transcript, now⟩) ∧
    roleFor .appointment = .staff ∧ roleFor .callback = .staff ∧
    roleFor .general = .staff ∧ roleFor .refill = .doctor ∧
    escalationRole .medical_emergency_keyword = .doctor := by
  exact ⟨fun cfg s es t hm => run_task_mem cfg es s t hm,
    fun s now => rfl, fun s r v now => rfl, rfl, rfl, rfl, rfl, rfl⟩

/-- C7 witness: a completed refill run emits a doctor-routed task record. -/
theorem task_record_fields_and_routing_witness :
    OutcomeRecord.task ⟨.refill, .doctor, [(.name, "Maria Lopez")], 3⟩ ∈
      (run ⟨70⟩ (freshSession "CA1007" 0)
        [⟨"refill please", 90, [], false, 1⟩,
         ⟨"Maria Lopez", 90, [(.name, "Maria Lopez")], false, 2⟩,
         ⟨"yes", 90, [], false, 3⟩]).2 ∧
    (⟨.refill, .doctor, [(.name, "Maria Lopez")], 3⟩ : TaskRecord).assigned_role
      = roleFor (⟨.refill, .doctor, [(.name, "Maria Lopez")], 3⟩ : TaskRecord).flow_kind := by
  refine ⟨by decide, ?_⟩
  exact task_record_fields_and_routing.1 ⟨70⟩ (freshSession "CA1007" 0)
    [⟨"refill please", 90, [], false, 1⟩,
     ⟨"Maria Lopez", 90, [(.name, "Maria Lopez")], false, 2⟩,
     ⟨"yes", 90, [], false, 3⟩] _ (by decide)

/-- C8: a mid-flow general question (such as "what are your hours") is
answered — the generation collaborator is invoked — while the session stays
in `SLOT_COLLECTION` with its slot map unchanged and its unrecognized-turn
counter not incremented. -/
theorem general_question_preserves_slot_collection (cfg : Config) (s : Session) (e : TurnEvent)
    (hst : s.state = .slotCollection)
    (hpf : e.providerFailure = false)
    (hq : isGeneralQuestion e.utterance = true)
    (hne : containsAny e.utterance emergencyKeywords = false)
    (hnh : containsAny e.utterance humanRequestKeywords = false)
    (hnm : containsAny e.utterance medicalRiskKeywords = false) :
    (step cfg s e).1.state = .slotCollection ∧
    (step cfg s e).1.slots = s.slots ∧
    (step cfg s e).1.unrecognized = s.unrecognized ∧
    (step cfg s e).2.genCall = true := by
  have hck : escalationCheck cfg s e = (none, s.unrecognized) := by
    simp [escalationCheck, hpf, hne, hnh, hnm, hq]
  have hadv : (advanceSession s e s.unrecognized).state = .slotCollection := by
    simpa [advanceSession] using hst
  have hms : machineStep cfg (advanceSession s e s.unrecognized) e
      = advanceSession s e s.unrecognized := by
    rw [machineStep_eq_slotC cfg _ e hadv, if_pos hq]
  unfold step
  rw [if_neg (by simp [hst, isTerminal]), hck]
  dsimp only
  rw [hms]
  rw [if_neg (by rw [hadv]; simp)]
  exact ⟨hadv, by simp [advanceSession], rfl, rfl⟩

/-- C8 witness: "what are your hours" during appointment slot collection. -/
theorem general_question_preserves_slot_collection_witness :
    (step ⟨70⟩ ⟨"CA1008", .slotCollection, .appointment, [(.name, "Jane Doe")], 2, 1,
        none, ["hi"], 0, 2⟩ ⟨"what are your hours", 90, [], false, 5⟩).1.state
      = .slotCollection ∧
    (step ⟨70⟩ ⟨"CA1008", .slotCollection, .appointment, [(.name, "Jane Doe")], 2, 1,
        none, ["hi"], 0, 2⟩ ⟨"what are your hours", 90, [], false, 5⟩).1.slots
      = [(.name, "Jane Doe")] ∧
    (step ⟨70⟩ ⟨"CA1008", .slotCollection, .appointment, [(.name, "Jane Doe")], 2, 1,
        none, ["hi"], 0, 2⟩ ⟨"what are your hours", 90, [], false, 5⟩).1.unrecognized = 1 ∧
    (step ⟨70⟩ ⟨"CA1008", .slotCollection, .appointment, [(.name, "Jane Doe")], 2, 1,
        none, ["hi"], 0, 2⟩ ⟨"what are your hours", 90, [], false, 5⟩).2.genCall = true := by
  have h := general_question_preserves_slot_collection ⟨70⟩
      ⟨"CA1008", .slotCollection, .appointment, [(.name, "Jane Doe")], 2, 1, none, ["hi"], 0, 2⟩
      ⟨"what are your hours", 90, [], false, 5⟩
      (by decide) (by decide) (by decide) (by decide) (by decide) (by decide)
  exact ⟨h.1, h.2.1, h.2.2.1, h.2.2.2⟩

/-- C9: `signIn` succeeds exactly when the trimmed e-mail matches a demo
account case-insensitively and the password matches exactly; on any other
input it returns the fixed error and leaves the stored user unchanged. -/
theorem signIn_demo_credentials (st : Option AuthUser) (e p : String) :
    ((signIn st e p).1.ok = true ↔
      ((codes (trimStr e) = codes "staff@cliniqai.demo" ∧ p = "staff123") ∨
       (codes (trimStr e) = codes "doctor@cliniqai.demo" ∧ p = "doctor123"))) ∧
    ((signIn st e p).1.ok = false →
      signIn st e p = (⟨false, some "Invalid demo credentials."⟩, st)) := by
  constructor
  · unfold signIn DEMO_ACCOUNTS
    by_cases h1 : codes "staff@cliniqai.demo" = codes (trimStr e) <;>
      by_cases h2 : "staff123" = p <;>
        by_cases h3 : codes "doctor@cliniqai.demo" = codes (trimStr e) <;>
          by_cases h4 : "doctor123" = p <;>
            simp [List.find?, credentialsMatch, h1, h2, h3, h4, eq_comm] <;>
              first
                | exact ⟨fun hcc => h2 hcc.symm, fun hcc => h4 hcc.symm⟩
                | exact fun hcc => h2 hcc.symm
                | exact fun hcc => h4 hcc.symm
  · intro hok
    unfold signIn at hok ⊢
    cases hf : DEMO_ACCOUNTS.find? (fun a => credentialsMatch a e p) with
    | none => rfl
    | some a =>
      rw [hf] at hok
      simp at hok

/-- C9 witness: a case-insensitive, space-padded staff login succeeds, as do
logins padded with a vertical tab and a no-break space (characters
`String.prototype.trim` strips); a wrong password is rejected without
touching the stored user. -/
theorem signIn_demo_credentials_witness :
    (signIn none " STAFF@cliniqai.demo " "staff123").1.ok = true ∧
    (signIn none "\x0Bstaff@cliniqai.demo" "staff123").1.ok = true ∧
    (signIn none "\u00A0doctor@cliniqai.demo\u00A0" "doctor123").1.ok = true ∧
    signIn (some ⟨"Aarav Staff", "staff@cliniqai.demo", .staff⟩)
        "staff@cliniqai.demo" "wrongpass"
      = (⟨false, some "Invalid demo credentials."⟩,
         some ⟨"Aarav Staff", "staff@cliniqai.demo", .staff⟩) := by
  refine ⟨?_, ?_, ?_, ?_⟩
  · exact (signIn_demo_credentials none " STAFF@cliniqai.demo " "staff123").1.mpr
      (Or.inl ⟨by decide, rfl⟩)
  · exact (signIn_demo_credentials none "\x0Bstaff@cliniqai.demo" "staff123").1.mpr
      (Or.inl ⟨by decide, rfl⟩)
  · exact (signIn_demo_credentials none "\u00A0doctor@cliniqai.demo\u00A0" "doctor123").1.mpr
      (Or.inr ⟨by decide, rfl⟩)
  · exact (signIn_demo_credentials
      (some ⟨"Aarav Staff", "staff@cliniqai.demo", .staff⟩)
      "staff@cliniqai.demo" "wrongpass").2 (by decide)

/-- C10: a signed-in user whose role is outside a route's allow list is
redirected by `RoleRoute` to their own role dashboard and the protected
element never renders; with no signed-in user the redirect goes to
`/signin`; `IndexRoute` routes each role to its dashboard likewise. -/
theorem roleRoute_redirects {α : Type} (el : α) (u : AuthUser) (allow : List DemoRole) :
    (u.role ∉ allow →
      roleRoute (some u) allow el = .redirect (dashboardFor u.role) ∧
      roleRoute (some u) allow el ≠ .render el) ∧
    roleRoute (none : Option AuthUser) allow el = .redirect "/signin" ∧
    indexRoute (some u) = .redirect (dashboardFor u.role) ∧
    indexRoute none = .redirect "/signin" := by
  refine ⟨fun h => ?_, rfl, ?_, rfl⟩
  · cases hr : u.role <;> rw [hr] at h <;> simp [roleRoute, dashboardFor, h, hr]
  · cases hr : u.role <;> simp [indexRoute, dashboardFor, hr]

/-- C10 witness: a staff user on the doctor-only route is sent to the staff
dashboard, never rendering the element. -/
theorem roleRoute_redirects_witness :
    (DemoRole.staff ∉ [DemoRole.doctor]) ∧
    roleRoute (some ⟨"Aarav Staff", "staff@cliniqai.demo", DemoRole.staff⟩)
        [DemoRole.doctor] (0 : Nat) = .redirect "/dashboard/staff" ∧
    roleRoute (some ⟨"Aarav Staff", "staff@cliniqai.demo", DemoRole.staff⟩)
        [DemoRole.doctor] (0 : Nat) ≠ .render 0 ∧
    roleRoute (none : Option AuthUser) [DemoRole.doctor] (0 : Nat) = .redirect "/signin" := by
  have h := roleRoute_redirects (0 : Nat)
      ⟨"Aarav Staff", "staff@cliniqai.demo", DemoRole.staff⟩ [DemoRole.doctor]
  have hm := h.1 (by decide)
  exact ⟨by decide, hm.1, hm.2, h.2.1⟩

end CliniqAI
